import Mathlib

/-!
Shallow embedding of `src/api/create-order.js` (the first `handler`
definition, lines 4-184): a serverless endpoint that validates a
payment-order request and forwards it to the Razorpay gateway.

JavaScript values are modelled as follows: possibly-absent strings are
`Option String` with JS truthiness `optTruthy` (absent and `""` are
falsy); JSON numbers are `ℚ` (`Number.isInteger q` becomes `q.den == 1`,
number truthiness becomes `q ≠ 0`); JSON objects whose entries matter
only by key are ordered association lists `List (String × v)` whose
observable value at a key is the last binding (`objValue`), matching
object-spread override semantics.  The nondeterministic ingredients of
one invocation (current millisecond, `Math.random` suffix, ISO
timestamp, whether the `new Razorpay` constructor throws, whether some
other statement in the `try` block throws, and the gateway's answer)
are passed to `handler` as explicit oracle arguments.  `handler` returns
the HTTP response together with the payload the gateway was invoked
with (`none` when no external call was attempted).
-/

namespace CreateOrder

/-- A JSON scalar value appearing in a response body. -/
inductive JVal where
  | str : String → JVal
  | num : ℚ → JVal
deriving DecidableEq

/-- An HTTP response: status code and optional JSON body, the body an
ordered list of fields exactly as serialized. -/
structure Response where
  status : ℕ
  body : Option (List (String × JVal))
deriving DecidableEq

/-- The environment variables the handler reads (`process.env`). -/
structure Env where
  VITE_RAZORPAY_KEY_ID : Option String
  RAZORPAY_KEY_ID : Option String
  RAZORPAY_KEY_SECRET : Option String
  NODE_ENV : Option String
deriving DecidableEq

/-- JS truthiness of a possibly-absent string: absent and `""` are falsy. -/
def optTruthy : Option String → Bool
  | some s => s ≠ ""
  | none => false

/-- JS `a || b` on possibly-absent strings (line 26). -/
def jsOr (a b : Option String) : Option String :=
  if optTruthy a then a else b

/-- Keep a possibly-absent string only when truthy. -/
def truthyStr : Option String → Option String
  | some s => if s ≠ "" then some s else none
  | none => none

/-- The `customer_details` object of the request body. -/
structure CustomerDetails where
  email : Option String
  phone : Option String
deriving DecidableEq

/-- The parsed JSON request body (line 62). -/
structure Body where
  amount : Option ℚ
  currency : Option String
  customer_details : Option CustomerDetails
  order_metadata : Option (List (String × String))
  receipt : Option String
  notes : Option (List (String × String))
deriving DecidableEq

/-- The `{}` default used for `req.body || {}`. -/
def emptyBody : Body :=
  { amount := none, currency := none, customer_details := none,
    order_metadata := none, receipt := none, notes := none }

/-- An incoming HTTP request: method and optional parsed JSON body. -/
structure Request where
  method : String
  body : Option Body
deriving DecidableEq

/-- Value observed at key `k` of an object built by writing the entries
of `l` in order: the last write wins, as in JS object literals/spreads. -/
def objValue {v : Type} (l : List (String × v)) (k : String) : Option v :=
  l.foldl (fun acc e => if e.1 = k then some e.2 else acc) none

/-- Entries conditionally written after the notes object is built
(lines 107-114): `customer_email` then `customer_phone`, each only when
`customer_details` supplies a truthy value. -/
def customerEntries : Option CustomerDetails → List (String × String)
  | none => []
  | some cd =>
    (match truthyStr cd.email with
      | some e => [("customer_email", e)]
      | none => []) ++
    (match truthyStr cd.phone with
      | some p => [("customer_phone", p)]
      | none => [])

/-- `keyId?.startsWith('rzp_live') ? 'LIVE' : 'TEST'` (line 99). -/
def envTag (keyId : Option String) : String :=
  match keyId with
  | some s => if s.startsWith "rzp_live" then "LIVE" else "TEST"
  | none => "TEST"

/-- The generated fallback receipt (line 95):
`rcpt_${Date.now()}_${Math.random().toString(36).substr(2, 9)}`, with
the millisecond timestamp and the random suffix as oracle inputs. -/
def generateReceipt (now : ℕ) (rand : String) : String :=
  "rcpt_" ++ toString now ++ "_" ++ rand

/-- JS `String.prototype.toUpperCase` on the ASCII strings involved
here: uppercase every character. -/
def jsToUpper (s : String) : String := String.mk (s.data.map Char.toUpper)

/-- JS `Math.round` on a (finite, non-negative-half) number:
round half toward positive infinity. -/
def jsRound (q : ℚ) : ℤ := ⌊q + 1/2⌋

/-- JS `Number.isInteger` on a finite number modelled as `ℚ`. -/
def isIntegerQ (q : ℚ) : Bool := q.den == 1

/-- The payload passed to `razorpay.orders.create` (lines 92-104). -/
structure OrderOptions where
  amount : ℤ
  currency : String
  receipt : String
  payment_capture : ℕ
  notes : List (String × String)
deriving DecidableEq

/-- The `notes` object of the gateway payload, written in source order
(lines 97-103 then 107-114): fixed keys `source`, `environment`,
`created_at`, then spread of caller `notes`, then spread of caller
`order_metadata`, then the conditional customer entries. -/
def buildNotes (keyId : Option String) (b : Body) (nowISO : String) :
    List (String × String) :=
  [("source", "3rd-client"),
   ("environment", envTag keyId),
   ("created_at", nowISO)]
  ++ b.notes.getD [] ++ b.order_metadata.getD []
  ++ customerEntries b.customer_details

/-- The full `orderOptions` value (lines 92-114), for a request that
passed validation with amount `a` and currency `c`. -/
def orderOptionsOf (keyId : Option String) (a : ℚ) (c : String) (b : Body)
    (now : ℕ) (rand : String) (nowISO : String) : OrderOptions :=
  { amount := jsRound a
    currency := jsToUpper c
    receipt :=
      match truthyStr b.receipt with
      | some r => r
      | none => generateReceipt now rand
    payment_capture := 1
    notes := buildNotes keyId b nowISO }

/-- The nested `error` object of a Razorpay error. -/
structure GatewayErrorBody where
  code : Option String
  description : Option String
deriving DecidableEq

/-- The error thrown by `razorpay.orders.create`. -/
structure RazorpayError where
  statusCode : Option ℕ
  message : Option String
  error : Option GatewayErrorBody
deriving DecidableEq

/-- A successful gateway order, with the six fields the handler reads
plus arbitrary further gateway-specific fields. -/
structure Order where
  id : String
  amount : ℚ
  currency : String
  receipt : String
  status : String
  created_at : ℚ
  extra : List (String × JVal)
deriving DecidableEq

/-- Status of the gateway-failure response (lines 140-145): the error's
`statusCode` when truthy, else 500. -/
def gatewayErrorStatus (e : RazorpayError) : ℕ :=
  match e.statusCode with
  | some n => if n ≠ 0 then n else 500
  | none => 500

/-- Message of the gateway-failure response (lines 141-151): structured
`error.description` when present and truthy, else truthy `message`,
else the generic fallback. -/
def gatewayErrorMessage (e : RazorpayError) : String :=
  match truthyStr (e.error.bind GatewayErrorBody.description) with
  | some d => d
  | none =>
    match truthyStr e.message with
    | some m => m
    | none => "Failed to create payment order"

/-- Code of the gateway-failure response (line 155):
`razorpayError.error?.code || 'RAZORPAY_ORDER_FAILED'`. -/
def gatewayErrorCode (e : RazorpayError) : String :=
  (truthyStr (e.error.bind GatewayErrorBody.code)).getD "RAZORPAY_ORDER_FAILED"

/-- The response sent when the gateway call fails (lines 153-156). -/
def gatewayErrorResponse (e : RazorpayError) : Response :=
  { status := gatewayErrorStatus e
    body := some [("error", JVal.str (gatewayErrorMessage e)),
                  ("code", JVal.str (gatewayErrorCode e))] }

/-- The normalized success response (lines 159-169). -/
def successResponse (o : Order) : Response :=
  { status := 200
    body := some [("id", JVal.str o.id),
                  ("amount", JVal.num o.amount),
                  ("currency", JVal.str o.currency),
                  ("receipt", JVal.str o.receipt),
                  ("status", JVal.str o.status),
                  ("created_at", JVal.num o.created_at)] }

/-- The top-level catch response (lines 178-182). -/
def unexpectedResponse (env : Env) (msg : String) : Response :=
  { status := 500
    body := some [("error", JVal.str "Internal server error"),
                  ("code", JVal.str "UNEXPECTED_ERROR"),
                  ("message", JVal.str
                    (if env.NODE_ENV = some "development" then msg
                     else "An unexpected error occurred"))] }

/-- `const supportedCurrencies = ['INR', 'USD', 'EUR']` (line 84). -/
def supportedCurrencies : List String := ["INR", "USD", "EUR"]

/-- The first `handler` of `src/api/create-order.js` (lines 4-184).
Oracle arguments: `now`/`rand` feed the fallback receipt generator,
`nowISO` is `new Date().toISOString()`, `initOk` is whether the
`new Razorpay` constructor succeeds, `unexpected = some msg` means some
statement of the `try` block (other than the gateway call) throws an
exception with message `msg`, and `gateway` is the outcome of
`razorpay.orders.create` on a given payload.  Returns the response and
the payload of the attempted gateway call, if any. -/
def handler (env : Env) (req : Request) (now : ℕ) (rand : String)
    (nowISO : String) (initOk : Bool) (unexpected : Option String)
    (gateway : OrderOptions → Except RazorpayError Order) :
    Response × Option OrderOptions :=
  if req.method = "OPTIONS" then
    ({ status := 200, body := none }, none)
  else if req.method ≠ "POST" then
    ({ status := 405, body := some [("error", JVal.str "Method not allowed")] },
     none)
  else
    match unexpected with
    | some msg => (unexpectedResponse env msg, none)
    | none =>
      let keyId := jsOr env.VITE_RAZORPAY_KEY_ID env.RAZORPAY_KEY_ID
      let keySecret := env.RAZORPAY_KEY_SECRET
      if ¬(optTruthy keyId ∧ optTruthy keySecret) then
        ({ status := 500,
           body := some [("error", JVal.str
                            "Payment gateway not configured. Please contact support."),
                         ("code", JVal.str "MISSING_CREDENTIALS")] }, none)
      else if ¬initOk then
        ({ status := 500,
           body := some [("error", JVal.str
                            "Payment gateway initialization failed"),
                         ("code", JVal.str "RAZORPAY_INIT_FAILED")] }, none)
      else
        let b := req.body.getD emptyBody
        let currency := b.currency.getD "INR"
        match b.amount with
        | none =>
          ({ status := 400,
             body := some [("error", JVal.str "Amount is required")] }, none)
        | some a =>
          if a = 0 then
            ({ status := 400,
               body := some [("error", JVal.str "Amount is required")] }, none)
          else if isIntegerQ a = false ∨ a < 100 ∨ a > 15000000 then
            ({ status := 400,
               body := some [("error", JVal.str
                 "Invalid amount. Must be between ₹1 and ₹1,50,000 (in paise: 100-15000000)")] },
             none)
          else if currency ∉ supportedCurrencies then
            ({ status := 400,
               body := some [("error", JVal.str
                 "Unsupported currency. Supported: INR, USD, EUR")] }, none)
          else
            let opts := orderOptionsOf keyId a currency b now rand nowISO
            match gateway opts with
            | .error e => (gatewayErrorResponse e, some opts)
            | .ok o => (successResponse o, some opts)

/-! ### Concrete fixtures used by the witness theorems -/

/-- A configured environment (test-mode key under the VITE name). -/
def envOK : Env :=
  { VITE_RAZORPAY_KEY_ID := some "rzp_test_abc123", RAZORPAY_KEY_ID := none,
    RAZORPAY_KEY_SECRET := some "secretkey", NODE_ENV := none }

/-- A production environment with the credentials present. -/
def envProd : Env :=
  { VITE_RAZORPAY_KEY_ID := some "rzp_live_abc123", RAZORPAY_KEY_ID := none,
    RAZORPAY_KEY_SECRET := some "secretkey", NODE_ENV := some "production" }

/-- An environment missing the key secret. -/
def envMissing : Env :=
  { VITE_RAZORPAY_KEY_ID := some "rzp_test_abc123", RAZORPAY_KEY_ID := none,
    RAZORPAY_KEY_SECRET := none, NODE_ENV := none }

/-- A gateway order carrying extra gateway-specific fields. -/
def order1 : Order :=
  { id := "order_1", amount := 50000, currency := "INR", receipt := "r1",
    status := "created", created_at := 169000000,
    extra := [("entity", JVal.str "order"), ("amount_paid", JVal.num 0)] }

/-- A stub gateway that always succeeds with `order1`. -/
def gw0 : OrderOptions → Except RazorpayError Order := fun _ => Except.ok order1

/-- A gateway error with status 400 and a structured description. -/
def errInvalidCurrency : RazorpayError :=
  { statusCode := some 400, message := some "Request failed",
    error := some { code := some "BAD_REQUEST_ERROR",
                    description := some "Invalid currency" } }

/-- A stub gateway that always fails with `errInvalidCurrency`. -/
def gwErr : OrderOptions → Except RazorpayError Order :=
  fun _ => Except.error errInvalidCurrency

/-- A valid request body whose `notes` and `order_metadata` collide on
the key `"k"`. -/
def bodyValid : Body :=
  { amount := some 50000, currency := some "INR", customer_details := none,
    order_metadata := some [("k", "vmeta")], receipt := some "r1",
    notes := some [("k", "vnotes")] }

/-- A valid request body with no caller-supplied receipt. -/
def bodyNoReceipt : Body :=
  { amount := some 50000, currency := some "USD", customer_details := none,
    order_metadata := none, receipt := none, notes := none }

/-- `bodyValid` with an out-of-range amount (50 paise, below 100). -/
def bodyLowAmount : Body := { bodyValid with amount := some 50 }

/-- `bodyValid` with a lower-cased currency. -/
def bodyLowercase : Body := { bodyValid with currency := some "inr" }

/-! ### Helper lemmas about last-write-wins object lookup -/

theorem objValue_foldl {v : Type} (l : List (String × v)) (k : String)
    (acc : Option v) :
    l.foldl (fun acc e => if e.1 = k then some e.2 else acc) acc =
      match objValue l k with
      | some w => some w
      | none => acc := by
  induction l generalizing acc with
  | nil => simp [objValue]
  | cons e t ih =>
    simp only [objValue, List.foldl_cons] at ih ⊢
    rw [ih (if e.1 = k then some e.2 else acc),
        ih (if e.1 = k then some e.2 else none)]
    cases hh : t.foldl (fun acc e => if e.1 = k then some e.2 else acc) none with
    | some w => simp [hh]
    | none => by_cases he : e.1 = k <;> simp [hh, he]

theorem objValue_append {v : Type} (l1 l2 : List (String × v)) (k : String) :
    objValue (l1 ++ l2) k =
      match objValue l2 k with
      | some w => some w
      | none => objValue l1 k := by
  simp only [objValue, List.foldl_append]
  exact objValue_foldl l2 k _

theorem string_append_cancel_left {s t u : String} (h : s ++ t = s ++ u) :
    t = u := by
  have hd : (s ++ t).data = (s ++ u).data := congrArg String.data h
  rw [String.data_append, String.data_append] at hd
  exact congrArg String.mk (List.append_cancel_left hd)

/-- A POST request with truthy credentials, a working constructor, no
stray exception, an integer amount in bounds and a supported currency
reaches the gateway call with the payload `orderOptionsOf ...`, and the
response is determined by the gateway's answer. -/
theorem handler_validated (env : Env) (b : Body) (now : ℕ)
    (rand nowISO : String) (gw : OrderOptions → Except RazorpayError Order)
    (a : ℚ)
    (hk : optTruthy (jsOr env.VITE_RAZORPAY_KEY_ID env.RAZORPAY_KEY_ID) = true)
    (hs : optTruthy env.RAZORPAY_KEY_SECRET = true)
    (ha : b.amount = some a)
    (hint : isIntegerQ a = true) (h100 : 100 ≤ a) (h15 : a ≤ 15000000)
    (hcur : b.currency.getD "INR" ∈ supportedCurrencies) :
    handler env { method := "POST", body := some b } now rand nowISO true none gw =
      (match gw (orderOptionsOf (jsOr env.VITE_RAZORPAY_KEY_ID env.RAZORPAY_KEY_ID)
                  a (b.currency.getD "INR") b now rand nowISO) with
       | .error e =>
         (gatewayErrorResponse e,
          some (orderOptionsOf (jsOr env.VITE_RAZORPAY_KEY_ID env.RAZORPAY_KEY_ID)
                  a (b.currency.getD "INR") b now rand nowISO))
       | .ok o =>
         (successResponse o,
          some (orderOptionsOf (jsOr env.VITE_RAZORPAY_KEY_ID env.RAZORPAY_KEY_ID)
                  a (b.currency.getD "INR") b now rand nowISO))) := by
  have h0 : ¬(a = 0) := by
    intro h
    rw [h] at h100
    norm_num at h100
  have hnotbad : ¬(isIntegerQ a = false ∨ a < 100 ∨ a > 15000000) := by
    simp only [not_or, not_lt]
    exact ⟨by simp [hint], h100, h15⟩
  simp [handler, ha, h0, hnotbad, hk, hs, hcur]

/-! ### Claim theorems -/

/-- C6: a request whose method is neither POST nor OPTIONS gets HTTP 405
with body `{error: "Method not allowed"}` and no gateway call; an
OPTIONS request gets HTTP 200 with no body. -/
theorem method_gate (env : Env) (req : Request) (now : ℕ)
    (rand nowISO : String) (initOk : Bool) (unexpected : Option String)
    (gw : OrderOptions → Except RazorpayError Order) :
    (req.method ≠ "POST" → req.method ≠ "OPTIONS" →
      handler env req now rand nowISO initOk unexpected gw =
        ({ status := 405,
           body := some [("error", JVal.str "Method not allowed")] }, none)) ∧
    (req.method = "OPTIONS" →
      handler env req now rand nowISO initOk unexpected gw =
        ({ status := 200, body := none }, none)) := by
  constructor
  · intro hp ho
    simp only [handler]
    rw [if_neg ho, if_pos hp]
  · intro ho
    simp only [handler]
    rw [if_pos ho]

theorem method_gate_witness :
    handler envOK { method := "GET", body := none } 0 "r" "t" true none gw0 =
      ({ status := 405,
         body := some [("error", JVal.str "Method not allowed")] }, none) ∧
    handler envOK { method := "OPTIONS", body := none } 0 "r" "t" true none gw0 =
      ({ status := 200, body := none }, none) :=
  ⟨(method_gate envOK { method := "GET", body := none } 0 "r" "t" true none
      gw0).1 (by decide) (by decide),
   (method_gate envOK { method := "OPTIONS", body := none } 0 "r" "t" true none
      gw0).2 rfl⟩

/-- C3: a POST request made while the resolved key identifier or the key
secret is not truthy in the environment yields HTTP 500 with the
configuration error message and code MISSING_CREDENTIALS, for any
request body, and the gateway is not called. -/
theorem missing_credentials_rejected (env : Env) (rbody : Option Body)
    (now : ℕ) (rand nowISO : String) (initOk : Bool)
    (gw : OrderOptions → Except RazorpayError Order)
    (hcred : optTruthy (jsOr env.VITE_RAZORPAY_KEY_ID env.RAZORPAY_KEY_ID) = false ∨
             optTruthy env.RAZORPAY_KEY_SECRET = false) :
    handler env { method := "POST", body := rbody } now rand nowISO initOk none gw =
      ({ status := 500,
         body := some [("error", JVal.str
                          "Payment gateway not configured. Please contact support."),
                       ("code", JVal.str "MISSING_CREDENTIALS")] }, none) := by
  rcases hcred with h | h <;> simp [handler, h]

theorem missing_credentials_witness :
    handler envMissing { method := "POST", body := some bodyValid } 0 "r" "t"
        true none gw0 =
      ({ status := 500,
         body := some [("error", JVal.str
                          "Payment gateway not configured. Please contact support."),
                       ("code", JVal.str "MISSING_CREDENTIALS")] }, none) :=
  missing_credentials_rejected envMissing (some bodyValid) 0 "r" "t" true gw0
    (Or.inr (by decide))

/-- C9: an exception raised inside the try block other than by the
gateway call is caught and mapped to HTTP 500 with code
UNEXPECTED_ERROR and no gateway call; the detailed message appears only
under NODE_ENV=development, and under production configuration the
generic message is returned. -/
theorem unexpected_error_caught (env : Env) (rbody : Option Body) (now : ℕ)
    (rand nowISO : String) (initOk : Bool) (msg : String)
    (gw : OrderOptions → Except RazorpayError Order) :
    handler env { method := "POST", body := rbody } now rand nowISO initOk
        (some msg) gw = (unexpectedResponse env msg, none) ∧
    unexpectedResponse env msg =
      { status := 500,
        body := some [("error", JVal.str "Internal server error"),
                      ("code", JVal.str "UNEXPECTED_ERROR"),
                      ("message", JVal.str
                        (if env.NODE_ENV = some "development" then msg
                         else "An unexpected error occurred"))] } ∧
    (env.NODE_ENV = some "production" →
      unexpectedResponse env msg =
        { status := 500,
          body := some [("error", JVal.str "Internal server error"),
                        ("code", JVal.str "UNEXPECTED_ERROR"),
                        ("message", JVal.str "An unexpected error occurred")] }) := by
  refine ⟨by simp [handler], rfl, ?_⟩
  intro hprod
  simp [unexpectedResponse, hprod]

theorem unexpected_error_witness :
    handler envProd { method := "POST", body := some bodyValid } 0 "r" "t" true
        (some "boom") gw0 = (unexpectedResponse envProd "boom", none) ∧
    unexpectedResponse envProd "boom" =
      { status := 500,
        body := some [("error", JVal.str "Internal server error"),
                      ("code", JVal.str "UNEXPECTED_ERROR"),
                      ("message", JVal.str "An unexpected error occurred")] } :=
  ⟨(unexpected_error_caught envProd (some bodyValid) 0 "r" "t" true "boom" gw0).1,
   (unexpected_error_caught envProd (some bodyValid) 0 "r" "t" true "boom" gw0).2.2 rfl⟩

/-- C4: with valid credentials, a truthy amount that is not an integer
or lies outside `[100, 15000000]` draws HTTP 400 with the
bounds-stating message and no gateway call, while an integer amount
inside the bounds never draws that response. -/
theorem amount_bounds_validation (env : Env) (b : Body) (now : ℕ)
    (rand nowISO : String) (gw : OrderOptions → Except RazorpayError Order)
    (hk : optTruthy (jsOr env.VITE_RAZORPAY_KEY_ID env.RAZORPAY_KEY_ID) = true)
    (hs : optTruthy env.RAZORPAY_KEY_SECRET = true) :
    (∀ a : ℚ, b.amount = some a → a ≠ 0 →
      (isIntegerQ a = false ∨ a < 100 ∨ a > 15000000) →
      handler env { method := "POST", body := some b } now rand nowISO true none gw =
        ({ status := 400,
           body := some [("error", JVal.str
             "Invalid amount. Must be between ₹1 and ₹1,50,000 (in paise: 100-15000000)")] },
         none)) ∧
    (∀ a : ℚ, b.amount = some a → isIntegerQ a = true → 100 ≤ a → a ≤ 15000000 →
      (handler env { method := "POST", body := some b } now rand nowISO true none gw).1 ≠
        { status := 400,
          body := some [("error", JVal.str
            "Invalid amount. Must be between ₹1 and ₹1,50,000 (in paise: 100-15000000)")] }) := by
  constructor
  · intro a ha h0 hbad
    simp [handler, ha, h0, eq_true hbad, hk, hs]
  · intro a ha hint h100 h15
    have h0 : ¬(a = 0) := by
      intro h
      rw [h] at h100
      norm_num at h100
    have hnotbad : ¬(isIntegerQ a = false ∨ a < 100 ∨ a > 15000000) := by
      simp only [not_or, not_lt]
      exact ⟨by simp [hint], h100, h15⟩
    by_cases hcur : b.currency.getD "INR" ∈ supportedCurrencies
    · rw [handler_validated env b now rand nowISO gw a hk hs ha hint h100 h15 hcur]
      cases hgw : gw (orderOptionsOf (jsOr env.VITE_RAZORPAY_KEY_ID env.RAZORPAY_KEY_ID)
          a (b.currency.getD "INR") b now rand nowISO) with
      | error e => simp [gatewayErrorResponse]
      | ok o => simp [successResponse]
    · simp [handler, ha, h0, hnotbad, hk, hs, hcur]

theorem amount_bounds_witness :
    (100 : ℚ) ≤ 50000 ∧
    handler envOK { method := "POST", body := some bodyLowAmount } 0 "r" "t" true none gw0 =
      ({ status := 400,
         body := some [("error", JVal.str
           "Invalid amount. Must be between ₹1 and ₹1,50,000 (in paise: 100-15000000)")] },
       none) ∧
    (handler envOK { method := "POST", body := some bodyValid } 0 "r" "t" true none gw0).1 ≠
      { status := 400,
        body := some [("error", JVal.str
          "Invalid amount. Must be between ₹1 and ₹1,50,000 (in paise: 100-15000000)")] } :=
  ⟨by norm_num,
   (amount_bounds_validation envOK bodyLowAmount 0 "r" "t" gw0 (by decide)
      (by decide)).1 50 rfl (by norm_num) (Or.inr (Or.inl (by norm_num))),
   (amount_bounds_validation envOK bodyValid 0 "r" "t" gw0 (by decide)
      (by decide)).2 50000 rfl (by decide) (by norm_num) (by norm_num)⟩

/-- C5: with valid credentials and a valid amount, a supplied currency
outside the set {INR, USD, EUR} (checked case-sensitively against the
supplied value, as the source does) draws HTTP 400 listing the
supported currencies, and no gateway call is made. -/
theorem currency_validation (env : Env) (b : Body) (now : ℕ)
    (rand nowISO : String) (gw : OrderOptions → Except RazorpayError Order)
    (a : ℚ) (c : String)
    (hk : optTruthy (jsOr env.VITE_RAZORPAY_KEY_ID env.RAZORPAY_KEY_ID) = true)
    (hs : optTruthy env.RAZORPAY_KEY_SECRET = true)
    (ha : b.amount = some a)
    (hint : isIntegerQ a = true) (h100 : 100 ≤ a) (h15 : a ≤ 15000000)
    (hc : b.currency = some c) (hmem : c ∉ supportedCurrencies) :
    handler env { method := "POST", body := some b } now rand nowISO true none gw =
      ({ status := 400,
         body := some [("error", JVal.str
           "Unsupported currency. Supported: INR, USD, EUR")] }, none) := by
  have h0 : ¬(a = 0) := by
    intro h
    rw [h] at h100
    norm_num at h100
  have hnotbad : ¬(isIntegerQ a = false ∨ a < 100 ∨ a > 15000000) := by
    simp only [not_or, not_lt]
    exact ⟨by simp [hint], h100, h15⟩
  simp [handler, ha, h0, hnotbad, hk, hs, hc, hmem]

theorem currency_validation_witness :
    handler envOK { method := "POST", body := some bodyLowercase } 0 "r" "t" true none gw0 =
      ({ status := 400,
         body := some [("error", JVal.str
           "Unsupported currency. Supported: INR, USD, EUR")] }, none) :=
  currency_validation envOK bodyLowercase 0 "r" "t" gw0 50000 "inr" (by decide)
    (by decide) rfl (by decide) (by norm_num) (by norm_num) rfl (by decide)

/-- C1: on a validated POST request whose gateway call succeeds with
order `o`, the handler responds HTTP 200 with a JSON body holding
exactly the six fields id, amount, currency, receipt, status,
created_at of `o`, whatever extra gateway-specific fields `o` carries. -/
theorem success_response_exact_fields (env : Env) (b : Body) (now : ℕ)
    (rand nowISO : String) (gw : OrderOptions → Except RazorpayError Order)
    (a : ℚ) (o : Order)
    (hk : optTruthy (jsOr env.VITE_RAZORPAY_KEY_ID env.RAZORPAY_KEY_ID) = true)
    (hs : optTruthy env.RAZORPAY_KEY_SECRET = true)
    (ha : b.amount = some a)
    (hint : isIntegerQ a = true) (h100 : 100 ≤ a) (h15 : a ≤ 15000000)
    (hcur : b.currency.getD "INR" ∈ supportedCurrencies)
    (hgw : gw (orderOptionsOf (jsOr env.VITE_RAZORPAY_KEY_ID env.RAZORPAY_KEY_ID)
             a (b.currency.getD "INR") b now rand nowISO) = Except.ok o) :
    handler env { method := "POST", body := some b } now rand nowISO true none gw =
      ({ status := 200,
         body := some [("id", JVal.str o.id),
                       ("amount", JVal.num o.amount),
                       ("currency", JVal.str o.currency),
                       ("receipt", JVal.str o.receipt),
                       ("status", JVal.str o.status),
                       ("created_at", JVal.num o.created_at)] },
       some (orderOptionsOf (jsOr env.VITE_RAZORPAY_KEY_ID env.RAZORPAY_KEY_ID)
               a (b.currency.getD "INR") b now rand nowISO)) := by
  rw [handler_validated env b now rand nowISO gw a hk hs ha hint h100 h15 hcur, hgw]
  rfl

theorem success_response_witness :
    handler envOK { method := "POST", body := some bodyValid } 7 "x1y2z3a4b" "T"
        true none gw0 =
      ({ status := 200,
         body := some [("id", JVal.str "order_1"),
                       ("amount", JVal.num 50000),
                       ("currency", JVal.str "INR"),
                       ("receipt", JVal.str "r1"),
                       ("status", JVal.str "created"),
                       ("created_at", JVal.num 169000000)] },
       some (orderOptionsOf (jsOr envOK.VITE_RAZORPAY_KEY_ID envOK.RAZORPAY_KEY_ID)
               50000 "INR" bodyValid 7 "x1y2z3a4b" "T")) :=
  success_response_exact_fields envOK bodyValid 7 "x1y2z3a4b" "T" gw0 50000
    order1 (by decide) (by decide) rfl (by decide) (by norm_num) (by norm_num)
    (by decide) rfl

/-- C7: on a validated POST request whose gateway call fails with error
`e`, the response carries the error's truthy statusCode (else 500), the
structured description when present and truthy (else the truthy raw
message, else the generic fallback), and the error's code when present
and truthy (else the fixed fallback RAZORPAY_ORDER_FAILED). -/
theorem gateway_error_mapping (env : Env) (b : Body) (now : ℕ)
    (rand nowISO : String) (gw : OrderOptions → Except RazorpayError Order)
    (a : ℚ) (e : RazorpayError)
    (hk : optTruthy (jsOr env.VITE_RAZORPAY_KEY_ID env.RAZORPAY_KEY_ID) = true)
    (hs : optTruthy env.RAZORPAY_KEY_SECRET = true)
    (ha : b.amount = some a)
    (hint : isIntegerQ a = true) (h100 : 100 ≤ a) (h15 : a ≤ 15000000)
    (hcur : b.currency.getD "INR" ∈ supportedCurrencies)
    (hgw : gw (orderOptionsOf (jsOr env.VITE_RAZORPAY_KEY_ID env.RAZORPAY_KEY_ID)
             a (b.currency.getD "INR") b now rand nowISO) = Except.error e) :
    handler env { method := "POST", body := some b } now rand nowISO true none gw =
      ({ status := gatewayErrorStatus e,
         body := some [("error", JVal.str (gatewayErrorMessage e)),
                       ("code", JVal.str (gatewayErrorCode e))] },
       some (orderOptionsOf (jsOr env.VITE_RAZORPAY_KEY_ID env.RAZORPAY_KEY_ID)
               a (b.currency.getD "INR") b now rand nowISO)) ∧
    (∀ n : ℕ, e.statusCode = some n → n ≠ 0 → gatewayErrorStatus e = n) ∧
    (e.statusCode = none → gatewayErrorStatus e = 500) ∧
    (∀ eo d, e.error = some eo → eo.description = some d → d ≠ "" →
      gatewayErrorMessage e = d) ∧
    (e.error.bind GatewayErrorBody.description = none → e.message = none →
      gatewayErrorMessage e = "Failed to create payment order") ∧
    (e.error.bind GatewayErrorBody.code = none →
      gatewayErrorCode e = "RAZORPAY_ORDER_FAILED") := by
  refine ⟨?_, ?_, ?_, ?_, ?_, ?_⟩
  · rw [handler_validated env b now rand nowISO gw a hk hs ha hint h100 h15 hcur, hgw]
    rfl
  · intro n hn hne
    simp [gatewayErrorStatus, hn, hne]
  · intro hn
    simp [gatewayErrorStatus, hn]
  · intro eo d heo hd hne
    simp [gatewayErrorMessage, heo, hd, truthyStr, hne]
  · intro hdesc hmsg
    simp [gatewayErrorMessage, hdesc, hmsg, truthyStr]
  · intro hcode
    simp [gatewayErrorCode, hcode, truthyStr]

theorem gateway_error_witness :
    handler envOK { method := "POST", body := some bodyValid } 7 "x1y2z3a4b" "T"
        true none gwErr =
      ({ status := 400,
         body := some [("error", JVal.str "Invalid currency"),
                       ("code", JVal.str "BAD_REQUEST_ERROR")] },
       some (orderOptionsOf (jsOr envOK.VITE_RAZORPAY_KEY_ID envOK.RAZORPAY_KEY_ID)
               50000 "INR" bodyValid 7 "x1y2z3a4b" "T")) := by
  have h := (gateway_error_mapping envOK bodyValid 7 "x1y2z3a4b" "T" gwErr 50000
    errInvalidCurrency (by decide) (by decide) rfl (by decide) (by norm_num)
    (by norm_num) (by decide) rfl).1
  rw [h]
  rfl

/-- C2: on a validated POST request, the notes object of the gateway
payload is written in the order fixed keys (source, environment,
created_at), caller notes, caller order_metadata, then customer_email
and customer_phone from customer_details, later writes winning; in
particular the value observed downstream at a key bound in
order_metadata is the order_metadata value whenever no customer entry
rebinds that key. -/
theorem notes_merge_order (env : Env) (b : Body) (now : ℕ)
    (rand nowISO : String) (gw : OrderOptions → Except RazorpayError Order)
    (a : ℚ)
    (hk : optTruthy (jsOr env.VITE_RAZORPAY_KEY_ID env.RAZORPAY_KEY_ID) = true)
    (hs : optTruthy env.RAZORPAY_KEY_SECRET = true)
    (ha : b.amount = some a)
    (hint : isIntegerQ a = true) (h100 : 100 ≤ a) (h15 : a ≤ 15000000)
    (hcur : b.currency.getD "INR" ∈ supportedCurrencies) :
    (handler env { method := "POST", body := some b } now rand nowISO true none gw).2 =
      some (orderOptionsOf (jsOr env.VITE_RAZORPAY_KEY_ID env.RAZORPAY_KEY_ID)
              a (b.currency.getD "INR") b now rand nowISO) ∧
    (orderOptionsOf (jsOr env.VITE_RAZORPAY_KEY_ID env.RAZORPAY_KEY_ID)
        a (b.currency.getD "INR") b now rand nowISO).notes =
      [("source", "3rd-client"),
       ("environment", envTag (jsOr env.VITE_RAZORPAY_KEY_ID env.RAZORPAY_KEY_ID)),
       ("created_at", nowISO)]
      ++ b.notes.getD [] ++ b.order_metadata.getD []
      ++ customerEntries b.customer_details ∧
    (∀ k w, objValue (b.order_metadata.getD []) k = some w →
      objValue (customerEntries b.customer_details) k = none →
      objValue (orderOptionsOf (jsOr env.VITE_RAZORPAY_KEY_ID env.RAZORPAY_KEY_ID)
          a (b.currency.getD "INR") b now rand nowISO).notes k = some w) := by
  refine ⟨?_, rfl, ?_⟩
  · rw [handler_validated env b now rand nowISO gw a hk hs ha hint h100 h15 hcur]
    cases gw (orderOptionsOf (jsOr env.VITE_RAZORPAY_KEY_ID env.RAZORPAY_KEY_ID)
        a (b.currency.getD "INR") b now rand nowISO) <;> rfl
  · intro k w hmd hcust
    show objValue (buildNotes (jsOr env.VITE_RAZORPAY_KEY_ID env.RAZORPAY_KEY_ID)
        b nowISO) k = some w
    rw [buildNotes, objValue_append, hcust, objValue_append, hmd]

theorem notes_merge_witness :
    (handler envOK { method := "POST", body := some bodyValid } 7 "x1y2z3a4b" "T"
        true none gw0).2 =
      some (orderOptionsOf (jsOr envOK.VITE_RAZORPAY_KEY_ID envOK.RAZORPAY_KEY_ID)
              50000 "INR" bodyValid 7 "x1y2z3a4b" "T") ∧
    objValue (orderOptionsOf (jsOr envOK.VITE_RAZORPAY_KEY_ID envOK.RAZORPAY_KEY_ID)
        50000 "INR" bodyValid 7 "x1y2z3a4b" "T").notes "k" = some "vmeta" := by
  have h := notes_merge_order envOK bodyValid 7 "x1y2z3a4b" "T" gw0 50000
    (by decide) (by decide) rfl (by decide) (by norm_num) (by norm_num) (by decide)
  exact ⟨h.1, h.2.2 "k" "vmeta" (by decide) (by decide)⟩

/-- C8: when the request supplies no receipt, the gateway payload's
receipt is the generated identifier combining the millisecond timestamp
and the random suffix, and two runs in the same millisecond whose
random suffixes differ produce distinct receipts. -/
theorem receipt_generation_distinct (env : Env) (b : Body) (now : ℕ)
    (r1 r2 nowISO : String) (gw : OrderOptions → Except RazorpayError Order)
    (a : ℚ)
    (hk : optTruthy (jsOr env.VITE_RAZORPAY_KEY_ID env.RAZORPAY_KEY_ID) = true)
    (hs : optTruthy env.RAZORPAY_KEY_SECRET = true)
    (ha : b.amount = some a)
    (hint : isIntegerQ a = true) (h100 : 100 ≤ a) (h15 : a ≤ 15000000)
    (hcur : b.currency.getD "INR" ∈ supportedCurrencies)
    (hr : b.receipt = none) (hne : r1 ≠ r2) :
    ((handler env { method := "POST", body := some b } now r1 nowISO true none gw).2.map
        OrderOptions.receipt = some (generateReceipt now r1)) ∧
    ((handler env { method := "POST", body := some b } now r2 nowISO true none gw).2.map
        OrderOptions.receipt = some (generateReceipt now r2)) ∧
    generateReceipt now r1 ≠ generateReceipt now r2 := by
  refine ⟨?_, ?_, ?_⟩
  · rw [handler_validated env b now r1 nowISO gw a hk hs ha hint h100 h15 hcur]
    cases gw (orderOptionsOf (jsOr env.VITE_RAZORPAY_KEY_ID env.RAZORPAY_KEY_ID)
        a (b.currency.getD "INR") b now r1 nowISO) <;>
      simp [orderOptionsOf, truthyStr, hr]
  · rw [handler_validated env b now r2 nowISO gw a hk hs ha hint h100 h15 hcur]
    cases gw (orderOptionsOf (jsOr env.VITE_RAZORPAY_KEY_ID env.RAZORPAY_KEY_ID)
        a (b.currency.getD "INR") b now r2 nowISO) <;>
      simp [orderOptionsOf, truthyStr, hr]
  · intro h
    simp only [generateReceipt] at h
    exact hne (string_append_cancel_left h)

theorem receipt_generation_witness :
    ((handler envOK { method := "POST", body := some bodyNoReceipt } 7 "aaa" "T"
        true none gw0).2.map OrderOptions.receipt = some (generateReceipt 7 "aaa")) ∧
    ((handler envOK { method := "POST", body := some bodyNoReceipt } 7 "bbb" "T"
        true none gw0).2.map OrderOptions.receipt = some (generateReceipt 7 "bbb")) ∧
    generateReceipt 7 "aaa" ≠ generateReceipt 7 "bbb" :=
  receipt_generation_distinct envOK bodyNoReceipt 7 "aaa" "bbb" "T" gw0 50000
    (by decide) (by decide) rfl (by decide) (by norm_num) (by norm_num)
    (by decide) rfl (by decide)

/-- C10: for a validated request the payload reaching the gateway
carries the amount and currency exactly as supplied: rounding is the
identity on the validated integer amount and upper-casing is the
identity on the validated currency. -/
theorem payload_preserves_amount_currency (env : Env) (b : Body) (now : ℕ)
    (rand nowISO : String) (gw : OrderOptions → Except RazorpayError Order)
    (a : ℚ)
    (hk : optTruthy (jsOr env.VITE_RAZORPAY_KEY_ID env.RAZORPAY_KEY_ID) = true)
    (hs : optTruthy env.RAZORPAY_KEY_SECRET = true)
    (ha : b.amount = some a)
    (hint : isIntegerQ a = true) (h100 : 100 ≤ a) (h15 : a ≤ 15000000)
    (hcur : b.currency.getD "INR" ∈ supportedCurrencies) :
    (((orderOptionsOf (jsOr env.VITE_RAZORPAY_KEY_ID env.RAZORPAY_KEY_ID)
        a (b.currency.getD "INR") b now rand nowISO).amount : ℤ) : ℚ) = a ∧
    (orderOptionsOf (jsOr env.VITE_RAZORPAY_KEY_ID env.RAZORPAY_KEY_ID)
        a (b.currency.getD "INR") b now rand nowISO).currency =
      b.currency.getD "INR" ∧
    (handler env { method := "POST", body := some b } now rand nowISO true none gw).2 =
      some (orderOptionsOf (jsOr env.VITE_RAZORPAY_KEY_ID env.RAZORPAY_KEY_ID)
              a (b.currency.getD "INR") b now rand nowISO) := by
  have hden : a.den = 1 := by simpa [isIntegerQ] using hint
  have hnum : (a.num : ℚ) = a := (Rat.den_eq_one_iff a).mp hden
  refine ⟨?_, ?_, ?_⟩
  · show ((jsRound a : ℤ) : ℚ) = a
    rw [show jsRound a = ⌊a + 1/2⌋ from rfl, ← hnum, Int.floor_int_add]
    norm_num
  · show jsToUpper (b.currency.getD "INR") = b.currency.getD "INR"
    have hcur3 : b.currency.getD "INR" = "INR" ∨ b.currency.getD "INR" = "USD" ∨
        b.currency.getD "INR" = "EUR" := by
      simpa [supportedCurrencies] using hcur
    rcases hcur3 with h | h | h <;> rw [h] <;> decide
  · rw [handler_validated env b now rand nowISO gw a hk hs ha hint h100 h15 hcur]
    cases gw (orderOptionsOf (jsOr env.VITE_RAZORPAY_KEY_ID env.RAZORPAY_KEY_ID)
        a (b.currency.getD "INR") b now rand nowISO) <;> rfl

theorem payload_identity_witness :
    (((orderOptionsOf (jsOr envOK.VITE_RAZORPAY_KEY_ID envOK.RAZORPAY_KEY_ID)
        50000 "USD" bodyNoReceipt 7 "aaa" "T").amount : ℤ) : ℚ) = 50000 ∧
    (orderOptionsOf (jsOr envOK.VITE_RAZORPAY_KEY_ID envOK.RAZORPAY_KEY_ID)
        50000 "USD" bodyNoReceipt 7 "aaa" "T").currency = "USD" ∧
    (handler envOK { method := "POST", body := some bodyNoReceipt } 7 "aaa" "T"
        true none gw0).2 =
      some (orderOptionsOf (jsOr envOK.VITE_RAZORPAY_KEY_ID envOK.RAZORPAY_KEY_ID)
              50000 "USD" bodyNoReceipt 7 "aaa" "T") :=
  payload_preserves_amount_currency envOK bodyNoReceipt 7 "aaa" "T" gw0 50000
    (by decide) (by decide) rfl (by decide) (by norm_num) (by norm_num) (by decide)

end CreateOrder
